import Mathlib

/-!
Shallow embedding, in Lean 4, of the Python functions and classes of the
ai-code-review-tasks repository that the verified claims are about, together
with theorems settling each claim.  Python floats are modelled as rationals
(all the arithmetic involved is exact), Python lists as Lean lists, Python
dicts as association lists, and code that can raise as `Except`-valued
functions whose error type enumerates the Python exceptions involved.
-/

/-- Python exceptions that the embedded code can raise. -/
inductive PyExc where
  | zeroDivisionError
  | valueError
  | typeError
  | otherError
deriving DecidableEq, Repr

/-- Python's true division `a / b`, which raises `ZeroDivisionError` when the
divisor is zero and otherwise returns the exact quotient. -/
def pyDiv (a b : ℚ) : Except PyExc ℚ :=
  if b = 0 then Except.error PyExc.zeroDivisionError else Except.ok (a / b)

namespace Task01

/-- From src/tasks/Task_01_BugDetection.py, lines 20-26:
`calculate_discount(price, discount_percentage)` returns
`price - discount_percentage`. -/
def calculate_discount (price discount_percentage : ℚ) : ℚ :=
  price - discount_percentage

/-- From src/tasks/Task_01_BugDetection.py, lines 28-33:
`calculate_average(numbers)` returns `sum(numbers) / len(numbers)`, where the
division is Python's `/` and hence raises `ZeroDivisionError` on a zero
divisor. -/
def calculate_average (numbers : List ℚ) : Except PyExc ℚ :=
  pyDiv numbers.sum numbers.length

/-- From src/tasks/Task_01_BugDetection.py, lines 44-54:
`process_data(data)` starts from the empty list and, for each item, rebinds
`result = result + [item]` (the `time.sleep(0.1)` call has no effect on the
returned value and is not modelled). -/
def process_data {α : Type} (data : List α) : List α :=
  data.foldl (fun result item => result ++ [item]) []

/-- The accumulator of the `process_data` loop: folding `result ++ [item]`
over the remaining items appends those items, in order, to the accumulator. -/
theorem foldl_concat_eq_append {α : Type} (l acc : List α) :
    l.foldl (fun result item => result ++ [item]) acc = acc ++ l := by
  induction l generalizing acc with
  | nil => simp
  | cons a l ih => simp [ih]

end Task01

namespace Task01Claims

open Task01

/-- Claim C2: for every price and every discount percentage,
`calculate_discount` returns their difference `price - discount_percentage`,
and not the price with the percentage applied (the two formulas disagree,
for instance, at price 200 and discount 20). -/
theorem calculate_discount_is_subtraction :
    (∀ price dp : ℚ, calculate_discount price dp = price - dp) ∧
    ¬ (∀ price dp : ℚ, calculate_discount price dp = price * (1 - dp / 100)) := by
  refine ⟨fun p d => rfl, fun h => ?_⟩
  have h20 := h 200 20
  norm_num [calculate_discount] at h20

/-- Claim C3: on the specific input price = 100, discount = 20 the code
returns 80, and on this one input the subtraction coincides with the
percentage formula `price * (1 - dp / 100)`. -/
theorem calculate_discount_100_20 :
    calculate_discount 100 20 = 80 ∧
    calculate_discount 100 20 = 100 * (1 - 20 / 100) := by
  norm_num [calculate_discount]

/-- Claim C9: `calculate_average` raises `ZeroDivisionError` exactly when the
input list is empty, and on every non-empty list returns
`sum(numbers) / len(numbers)`. -/
theorem calculate_average_spec (numbers : List ℚ) :
    (calculate_average numbers = Except.error PyExc.zeroDivisionError ↔
      numbers = []) ∧
    (numbers ≠ [] →
      calculate_average numbers = Except.ok (numbers.sum / numbers.length)) := by
  constructor
  · constructor
    · intro h
      by_contra hne
      have hlen : (numbers.length : ℚ) ≠ 0 := by
        exact_mod_cast fun h0 => hne (List.length_eq_zero.mp h0)
      simp [calculate_average, pyDiv, hlen] at h
    · intro h
      subst h
      simp [calculate_average, pyDiv]
  · intro hne
    have hlen : (numbers.length : ℚ) ≠ 0 := by
      exact_mod_cast fun h0 => hne (List.length_eq_zero.mp h0)
    simp [calculate_average, pyDiv, hlen]

/-- Witness for claim C9: the list [1, 2, 3] is non-empty and its average is
computed as 2. -/
theorem calculate_average_spec_witness :
    ([1, 2, 3] : List ℚ) ≠ [] ∧
    calculate_average [1, 2, 3] = Except.ok 2 := by
  refine ⟨by simp, ?_⟩
  have h := (calculate_average_spec [1, 2, 3]).2 (by simp)
  norm_num at h
  exact h

/-- Claim C10: ignoring timing, `process_data` is the identity on lists: the
result of the repeated `result = result + [item]` rebuild contains exactly
the input's elements in the same order. -/
theorem process_data_identity {α : Type} (data : List α) :
    process_data data = data := by
  simpa [process_data] using foldl_concat_eq_append data []

end Task01Claims

namespace Task02

/-- From src/tasks/Task_02_BugDetection.py, lines 40-44:
`validate_user_data(user_dict)` returns True when the key "age" is present
and the stored age satisfies `age > 18 or age < 120`, and False otherwise.
The dict is modelled as an association list from keys to numeric values. -/
def validate_user_data (user_dict : List (String × ℚ)) : Bool :=
  match user_dict.lookup "age" with
  | some age => if age > 18 ∨ age < 120 then true else false
  | none => false

end Task02

namespace Task02Claims

open Task02

/-- Claim C8: `validate_user_data(user_dict)` returns True if and only if the
key "age" is present: for every numeric age the condition
`age > 18 or age < 120` is a tautology, so the range check rejects nothing. -/
theorem validate_user_data_iff_age_present (user_dict : List (String × ℚ)) :
    validate_user_data user_dict = true ↔
      (user_dict.lookup "age").isSome := by
  unfold validate_user_data
  cases h : user_dict.lookup "age" with
  | none => simp
  | some age =>
    have htauto : age > 18 ∨ age < 120 := by
      rcases le_or_lt age 18 with h18 | h18
      · exact Or.inr (lt_of_le_of_lt h18 (by norm_num))
      · exact Or.inl h18
    simp [htauto]

end Task02Claims

namespace Task07

/-- From src/tasks/Task_07_Concurrency.py, lines 34-43: a `BankAccount` holds
an `account_id` and a private balance `_balance` (set from
`initial_balance` by `__init__`). -/
structure BankAccount where
  account_id : String
  _balance : ℚ
deriving DecidableEq, Repr

/-- From src/tasks/Task_07_Concurrency.py, lines 44-49: `deposit` reads the
stored balance into `current_balance`, sleeps (no effect on the account in a
sequential, non-interleaved execution), then writes back the read value plus
`amount`. -/
def BankAccount.deposit (a : BankAccount) (amount : ℚ) : BankAccount :=
  let current_balance := a._balance
  { a with _balance := current_balance + amount }

end Task07

namespace Task07Claims

open Task07

/-- Claim C4: in a sequential execution, `BankAccount.deposit(amount)` leaves
the final balance equal to the pre-call balance plus `amount`, and leaves the
`account_id` field unchanged. -/
theorem deposit_sequential (a : BankAccount) (amount : ℚ) :
    (a.deposit amount)._balance = a._balance + amount ∧
    (a.deposit amount).account_id = a.account_id :=
  ⟨rfl, rfl⟩

end Task07Claims

namespace Task16

/-- An instance of the `DatabaseConnection` class of
src/tasks/Task_16_DesignPatterns.py (lines 43-60), modelled by its instance
attributes.  `none` means the attribute was never assigned on the instance;
the `connection` attribute, when assigned, holds either Python `None`
(inner `none`) or a live connection identified by its database name. -/
structure DBInstance where
  connection : Option (Option String)
  _initialized : Option Bool
deriving DecidableEq, Repr

/-- Lookup of `self._initialized`: Python reads the instance attribute if it
was assigned, otherwise the class attribute `_initialized = False` (line 48),
which the class body never reassigns. -/
def DBInstance.getInitialized (i : DBInstance) : Bool :=
  i._initialized.getD false

/-- The class-level state of `DatabaseConnection` together with a heap of
allocated instances.  `_instance` holds the heap address of the singleton
(class attribute, line 47); `super().__new__` allocates a fresh address at
the end of the heap. -/
structure DBClassState where
  _instance : Option ℕ
  heap : List DBInstance
deriving DecidableEq, Repr

/-- Lines 50-54, `__new__`: if `cls._instance` is `None`, allocate a fresh
bare object (no instance attributes) and store it in `cls._instance`; return
`cls._instance`. -/
def new (s : DBClassState) : ℕ × DBClassState :=
  match s._instance with
  | some a => (a, s)
  | none =>
      (s.heap.length,
        { _instance := some s.heap.length,
          heap := s.heap ++ [{ connection := none, _initialized := none }] })

/-- Lines 56-60, `__init__` applied to the object at address `a`: if
`self._initialized` is falsy, assign `self.connection = None` and
`self._initialized = True`; otherwise do nothing. -/
def initMethod (s : DBClassState) (a : ℕ) : DBClassState :=
  match s.heap[a]? with
  | none => s
  | some i =>
      if i.getInitialized then s
      else
        { s with
          heap := s.heap.set a
            { i with connection := some none, _initialized := some true } }

/-- A construction expression `DatabaseConnection()`: Python calls `__new__`
and then `__init__` on the returned object, and the expression evaluates to
that object. -/
def construct (s : DBClassState) : ℕ × DBClassState :=
  ((new s).1, initMethod (new s).2 (new s).1)

/-- Lines 62-65, `connect`: assign `self.connection` a live connection to the
given database. -/
def connect (s : DBClassState) (a : ℕ) (database : String) : DBClassState :=
  match s.heap[a]? with
  | none => s
  | some i =>
      { s with
        heap := s.heap.set a { i with connection := some (some database) } }

/-- Single-threaded client operations against the `DatabaseConnection`
class: construct the singleton again, or call `connect` on some held
reference. -/
inductive Op where
  | construct
  | connect (a : ℕ) (database : String)
deriving DecidableEq, Repr

/-- One client operation, applied to the class state. -/
def applyOp (s : DBClassState) : Op → DBClassState
  | Op.construct => (construct s).2
  | Op.connect a db => connect s a db

/-- A sequence of client operations, applied in order. -/
def run (s : DBClassState) : List Op → DBClassState
  | [] => s
  | op :: ops => run (applyOp s op) ops

/-- The state at module import: `_instance = None` and nothing allocated. -/
def initialState : DBClassState := { _instance := none, heap := [] }

/-- The singleton invariant: the class attribute `_instance` holds address 0,
and the object there has its `_initialized` instance attribute set to True. -/
def Inv (s : DBClassState) : Prop :=
  s._instance = some 0 ∧
  ∃ i, s.heap[0]? = some i ∧ i._initialized = some true

/-- Under the invariant, constructing again returns the stored singleton and
leaves the class state (in particular every instance attribute) unchanged. -/
theorem construct_of_inv (s : DBClassState) (h : Inv s) :
    construct s = (0, s) := by
  obtain ⟨hinst, i, hget, hinit⟩ := h
  have hnew : new s = (0, s) := by
    unfold new
    rw [hinst]
  have hinitm : initMethod s 0 = s := by
    unfold initMethod
    rw [hget]
    simp [DBInstance.getInitialized, hinit]
  simp [construct, hnew, hinitm]

/-- Every client operation preserves the singleton invariant. -/
theorem inv_applyOp (s : DBClassState) (h : Inv s) (op : Op) :
    Inv (applyOp s op) := by
  cases op with
  | construct =>
      simpa [applyOp, construct_of_inv s h] using h
  | connect a db =>
      obtain ⟨hinst, i, hget, hinit⟩ := h
      simp only [applyOp, connect]
      cases ha : s.heap[a]? with
      | none => exact ⟨hinst, i, hget, hinit⟩
      | some j =>
          refine ⟨hinst, ?_⟩
          by_cases h0 : a = 0
          · subst h0
            refine ⟨{ j with connection := some (some db) }, ?_, ?_⟩
            · have hlt : 0 < s.heap.length := by
                cases hl : s.heap with
                | nil => rw [hl] at hget; simp at hget
                | cons x xs => simp [hl]
              exact List.getElem?_set_eq_of_lt _ hlt
            · have : j = i := by
                rw [hget] at ha
                exact (Option.some_inj.mp ha).symm
              rw [this]
              exact hinit
          · refine ⟨i, ?_, hinit⟩
            rw [List.getElem?_set_ne h0]
            exact hget

/-- Any sequence of client operations preserves the singleton invariant. -/
theorem inv_run (s : DBClassState) (h : Inv s) (ops : List Op) :
    Inv (run s ops) := by
  induction ops generalizing s with
  | nil => exact h
  | cons op ops ih => exact ih _ (inv_applyOp s h op)

end Task16

namespace Task16Claims

open Task16

/-- Claim C5: `DatabaseConnection` behaves as a single-threaded singleton.
The first construction allocates the object at address 0 and `__init__`
assigns `connection = None` on it; after that, however the client interleaves
further constructions and `connect` calls, every construction returns the
identical object (address 0) and leaves the class state — in particular the
existing `connection` attribute — entirely unchanged. -/
theorem databaseConnection_singleton :
    (construct initialState).1 = 0 ∧
    ((construct initialState).2).heap[0]? =
      some { connection := some none, _initialized := some true } ∧
    ∀ ops : List Op,
      construct (run (construct initialState).2 ops) =
        (0, run (construct initialState).2 ops) := by
  have hfirst :
      (construct initialState).2 =
        { _instance := some 0,
          heap := [{ connection := some none, _initialized := some true }] } := by
    rfl
  refine ⟨rfl, by rw [hfirst]; rfl, fun ops => ?_⟩
  have hinv : Inv (construct initialState).2 := by
    rw [hfirst]
    exact ⟨rfl, _, rfl, rfl⟩
  exact construct_of_inv _ (inv_run _ hinv ops)

end Task16Claims

namespace Task04

/-- An item passed to `generate_report` in src/tasks/Task_04_Performance.py:
a dict with keys 'id', 'name' and 'value', modelled by the rendered text of
each of the three values (the f-strings interpolate `str()` of the stored
values). -/
structure ReportItem where
  id : String
  name : String
  value : String
deriving DecidableEq, Repr

/-- From src/tasks/Task_04_Performance.py, lines 97-109: `generate_report`
starts from the empty string and, for each item in order, appends the four
lines `Item: {id}`, `Name: {name}`, `Value: {value}` and `---` with `+=`. -/
def generate_report (items : List ReportItem) : String :=
  items.foldl
    (fun report item =>
      report ++ ("Item: " ++ item.id ++ "\n")
        ++ ("Name: " ++ item.name ++ "\n")
        ++ ("Value: " ++ item.value ++ "\n")
        ++ "---\n")
    ""

/-- The four-line block the claim describes for one item:
`"Item: {id}\nName: {name}\nValue: {value}\n---\n"`. -/
def itemBlock (item : ReportItem) : String :=
  "Item: " ++ item.id ++ "\n" ++ "Name: " ++ item.name ++ "\n"
    ++ "Value: " ++ item.value ++ "\n" ++ "---\n"

/-- The claim's specification of the report: the in-order concatenation of
one block per item. -/
def reportConcat : List ReportItem → String
  | [] => ""
  | item :: rest => itemBlock item ++ reportConcat rest

/-- The `generate_report` loop, started from any accumulated prefix, appends
exactly the concatenation of the remaining items' blocks. -/
theorem generate_report_loop (items : List ReportItem) (acc : String) :
    items.foldl
      (fun report item =>
        report ++ ("Item: " ++ item.id ++ "\n")
          ++ ("Name: " ++ item.name ++ "\n")
          ++ ("Value: " ++ item.value ++ "\n")
          ++ "---\n")
      acc = acc ++ reportConcat items := by
  induction items generalizing acc with
  | nil => simp [reportConcat, String.append_empty]
  | cons item rest ih =>
      rw [List.foldl_cons, ih]
      simp only [reportConcat, itemBlock, String.append_assoc]

end Task04

namespace Task04Claims

open Task04

/-- Claim C7: for every list of items with keys 'id', 'name' and 'value',
`generate_report` returns the in-order concatenation of one block
`"Item: {id}\nName: {name}\nValue: {value}\n---\n"` per item, and returns the
empty string on the empty list. -/
theorem generate_report_concat (items : List ReportItem) :
    generate_report items = reportConcat items ∧
    generate_report [] = "" := by
  constructor
  · have h := generate_report_loop items ""
    rw [generate_report, h, String.empty_append]
  · rfl

end Task04Claims

namespace Task27

/-- A Python value produced by `json.loads`: JSON null, booleans, numbers,
strings, arrays and objects. -/
inductive PyJson where
  | null
  | bool (b : Bool)
  | num (q : ℚ)
  | str (s : String)
  | arr (elems : List PyJson)
  | obj (fields : List (String × PyJson))

/-- From src/tasks/Task_27_ErrorHandlingIssues.py, lines 76-82:
`DataProcessor.process_data` runs `return json.loads(data)` inside a `try`
whose bare `except:` returns `{}`.  The standard-library parser `json.loads`
is not part of this repository, so the method is parameterised by it: `loads`
returns the parsed value or the exception it raises. -/
def DataProcessor.process_data (loads : String → Except PyExc PyJson)
    (data : String) : Except PyExc PyJson :=
  match loads data with
  | Except.ok v => Except.ok v
  | Except.error _ => Except.ok (PyJson.obj [])

/-- A concrete stand-in parser used to exercise `process_data` on one input
that parses and one that does not. -/
def loadsToy : String → Except PyExc PyJson := fun s =>
  if s = "true" then Except.ok (PyJson.bool true)
  else Except.error PyExc.valueError

end Task27

namespace Task27Claims

open Task27

/-- Claim C6: whatever `json.loads` does on the input — return a value or
raise — `DataProcessor.process_data` never raises: it returns the parsed
value when parsing succeeds and the empty dict `{}` when parsing fails. -/
theorem process_data_never_raises (loads : String → Except PyExc PyJson)
    (data : String) :
    (∃ v, DataProcessor.process_data loads data = Except.ok v) ∧
    (∀ v, loads data = Except.ok v →
      DataProcessor.process_data loads data = Except.ok v) ∧
    (∀ e, loads data = Except.error e →
      DataProcessor.process_data loads data = Except.ok (PyJson.obj [])) := by
  unfold DataProcessor.process_data
  cases h : loads data with
  | ok v =>
      refine ⟨⟨v, rfl⟩, fun w hw => ?_, fun e he => ?_⟩
      · cases hw
        rfl
      · exact absurd he (by simp)
  | error e =>
      refine ⟨⟨PyJson.obj [], rfl⟩, fun w hw => ?_, fun f hf => ?_⟩
      · exact absurd hw (by simp)
      · rfl

/-- Witness for claim C6: with the stand-in parser, an input that parses is
returned as parsed, and an input that raises comes back as the empty dict. -/
theorem process_data_never_raises_witness :
    DataProcessor.process_data loadsToy "true" = Except.ok (PyJson.bool true) ∧
    DataProcessor.process_data loadsToy "oops" = Except.ok (PyJson.obj []) :=
  ⟨(process_data_never_raises loadsToy "true").2.1 (PyJson.bool true)
      (by simp [loadsToy]),
    (process_data_never_raises loadsToy "oops").2.2 PyExc.valueError
      (by simp [loadsToy])⟩

end Task27Claims

namespace PyGrammar

/-!
A minimal fragment of Python's expression grammar, sufficient for
space-separated expression texts that alternate atoms (identifiers and
integer literals) with binary operators — the shape of the comprehension
condition on line 61 of src/tasks/Task_01_BugDetection.py.  Per the Python
language reference, the binary operators usable inside an expression are the
arithmetic, shift, bitwise, comparison and boolean ones listed below; a bare
`=` is not an expression operator (assignment is a statement), which is why
`x % 2 = 0` is rejected by the parser at module-load time while
`x % 2 == 0` is accepted.
-/

/-- A lexical token: an identifier, an integer literal, or a symbol. -/
inductive PyTok where
  | ident (s : String)
  | intLit (s : String)
  | sym (s : String)
deriving DecidableEq, Repr

/-- Split a character list into space-separated words, the first argument of
the accumulator being the (reversed) word being read. -/
def splitWordsAux : List Char → List Char → List (List Char)
  | [], acc => if acc.isEmpty then [] else [acc.reverse]
  | c :: cs, acc =>
      if c = ' ' then
        if acc.isEmpty then splitWordsAux cs []
        else acc.reverse :: splitWordsAux cs []
      else splitWordsAux cs (c :: acc)

/-- The space-separated words of a character list. -/
def splitWords (cs : List Char) : List (List Char) :=
  splitWordsAux cs []

/-- Whether a word starts like an identifier (letter or underscore). -/
def startsIdent : List Char → Bool
  | [] => false
  | c :: _ => c.isAlpha || c = '_'

/-- Classify one space-separated word of the source text. -/
def classifyWord (w : List Char) : PyTok :=
  if !w.isEmpty && w.all Char.isDigit then PyTok.intLit (String.mk w)
  else if startsIdent w then PyTok.ident (String.mk w)
  else PyTok.sym (String.mk w)

/-- Lex a space-separated expression text into tokens. -/
def pyLexWords (s : String) : List PyTok :=
  (splitWords s.data).map classifyWord

/-- Keyword binary operators of the Python expression grammar. -/
def pyKeywordOps : List String := ["and", "or", "in", "is"]

/-- Symbolic binary operators of the Python expression grammar.  `=` is
deliberately absent: Python has no `=` operator inside expressions. -/
def pySymbolOps : List String :=
  ["+", "-", "*", "/", "//", "%", "@", "**", "==", "!=", "<", "<=", ">",
    ">=", "&", "|", "^", "<<", ">>"]

/-- Whether a token can stand as a binary operator between two atoms. -/
def isBinOpTok : PyTok → Bool
  | PyTok.sym s => decide (s ∈ pySymbolOps)
  | PyTok.ident s => decide (s ∈ pyKeywordOps)
  | PyTok.intLit _ => false

/-- Whether a token is an atom (an identifier that is not a keyword, or an
integer literal). -/
def isAtomTok : PyTok → Bool
  | PyTok.ident s => !decide (s ∈ pyKeywordOps)
  | PyTok.intLit _ => true
  | PyTok.sym _ => false

/-- After a leading atom, the rest of a valid expression is a possibly empty
chain of (binary operator, atom) pairs. -/
def validOpAtomChain : List PyTok → Bool
  | [] => true
  | op :: a :: rest => isBinOpTok op && isAtomTok a && validOpAtomChain rest
  | [_] => false

/-- A valid flat expression: an atom followed by an operator-atom chain. -/
def validPyExpr : List PyTok → Bool
  | [] => false
  | a :: rest => isAtomTok a && validOpAtomChain rest

/-- Whether a space-separated expression text parses as a Python
expression. -/
def pyExprOk (s : String) : Bool :=
  validPyExpr (pyLexWords s)

/-- The comprehension condition on line 61 of
src/tasks/Task_01_BugDetection.py, inside
`return [x for x in numbers if x % 2 = 0]`. -/
def task01_line61_condition : String := "x % 2 = 0"

/-- The condition the same line's comment says was intended
(`Should be == instead of =`). -/
def task01_intended_condition : String := "x % 2 == 0"

end PyGrammar

namespace Task01Claims2

open PyGrammar

/-- Claim C1 (refuting evaluation): the condition `x % 2 = 0` on line 61 of
Task_01_BugDetection.py is not a valid Python expression, while the intended
`x % 2 == 0` is — so Python raises SyntaxError while compiling the file and
`main()` never runs, contradicting the claim that every task file executes
to completion and prints output. -/
theorem task01_line61_is_syntax_error :
    pyExprOk task01_line61_condition = false ∧
    pyExprOk task01_intended_condition = true := by
  decide

end Task01Claims2
